import Mathlib

/-!
Shallow embedding of the MOSAIK mosaic-canvas program (`src/mosaic-canvas.js`).

The source is concatenated from three scripts:
* a replace-mode, header-schema CSV loader (`loadCSV`, lines 14-203),
* the main script with `parseCSVRowJS`/`loadCSV` (fixed 4-column variant),
  grid operations and `initializePaper` with `window.paperFunctions`
  (lines 224-631),
* an append-mode, header-schema CSV loader (lines 633-842).

JavaScript numbers are modelled by `ℚ` (the computations at stake are
elementary arithmetic, exact in every claim's scenario); grid column/row
counters by `ℤ`.  DOM reads (the `tileSizeInput` value), `JSON.parse` of the
coordinate field, `parseFloat`/`parseInt` of numeric fields, and the paper.js
scene graph are at the model boundary: the tile size is passed as a parameter,
a parse outcome is carried as an `Option` in the record model, and the scene
is a `MosaicState` holding the grid line/background shapes and polygon paths.
-/

namespace Mosaik

/-- `canvasWidth = 900` (initializePaper, line 367). -/
def canvasWidth : ℚ := 900

/-- `canvasHeight = 600` (initializePaper, line 368). -/
def canvasHeight : ℚ := 600

/-- The uniform scale and centering offsets computed identically in
`updatePolygonPositions` (lines 377-390), `createPolygon` (lines 443-456) and
`drawGrid` (lines 505-518):
`worldWidth = gridColumns * tileSize`, `worldHeight = gridRows * tileSize`,
`scale = min(canvasWidth/worldWidth, canvasHeight/worldHeight)`,
`offsetX = (canvasWidth - worldWidth*scale)/2`, `offsetY` analogous. -/
structure Transform where
  scale : ℚ
  offsetX : ℚ
  offsetY : ℚ
  deriving DecidableEq, Repr

/-- `computeTransform` is the common transform computation of
`drawGrid`, `createPolygon` and `updatePolygonPositions`. -/
def computeTransform (gridColumns gridRows : ℤ) (tileSize : ℚ) : Transform :=
  let worldWidth : ℚ := (gridColumns : ℚ) * tileSize
  let worldHeight : ℚ := (gridRows : ℚ) * tileSize
  let scaleX := canvasWidth / worldWidth
  let scaleY := canvasHeight / worldHeight
  let scale := min scaleX scaleY
  let displayWidth := worldWidth * scale
  let displayHeight := worldHeight * scale
  { scale := scale
    offsetX := (canvasWidth - displayWidth) / 2
    offsetY := (canvasHeight - displayHeight) / 2 }

/-- Screen projection of one world-space vertex:
`screen = (offsetX + worldX*scale, offsetY + worldY*scale)`
(lines 410-411 and 470-471). -/
def projectPoint (T : Transform) (p : ℚ × ℚ) : ℚ × ℚ :=
  (T.offsetX + p.1 * T.scale, T.offsetY + p.2 * T.scale)

/-- A polygon path as created by `createPolygon` (lines 440-491): it keeps its
original world-space vertex list (`path.originalCoords = coords.slice()`),
the derived screen-space segment list, the `closed` flag, the fill color, the
stroke color (RGBA, each channel in 0-1) and the stroke width. -/
structure Polygon where
  originalCoords : List (ℚ × ℚ)
  segments : List (ℚ × ℚ)
  closed : Bool
  fillColor : ℚ × ℚ × ℚ
  strokeColor : ℚ × ℚ × ℚ × ℚ
  strokeWidth : ℚ
  deriving DecidableEq, Repr

/-- A grid line drawn by `drawGrid` (`paper.Path.Line(p1, p2)`). -/
structure GLine where
  p1 : ℚ × ℚ
  p2 : ℚ × ℚ
  deriving DecidableEq, Repr

/-- The grid background rectangle drawn by `drawGrid`
(`paper.Path.Rectangle({point, size})`, lines 521-525). -/
structure GRect where
  point : ℚ × ℚ
  size : ℚ × ℚ
  deriving DecidableEq, Repr

/-- The mutable state of `initializePaper` (lines 360-368): the grid counters
`gridColumns`/`gridRows` and the scene-graph contents `polygonPaths`,
`gridLines`, `gridBackground`. -/
structure MosaicState where
  gridColumns : ℤ
  gridRows : ℤ
  polygons : List Polygon
  gridLines : List GLine
  gridBackground : Option GRect
  deriving DecidableEq, Repr

/-- The initial state: `gridColumns = 10`, `gridRows = 7`, no polygons and no
grid shapes yet (lines 360-366). -/
def initState : MosaicState :=
  { gridColumns := 10, gridRows := 7, polygons := [], gridLines := [],
    gridBackground := none }

/-- One pass of `updatePolygonPositions` over a single path (lines 395-423):
the current visual properties are saved, the segments are cleared and rebuilt
from `originalCoords` through the transform, and the visual properties are
restored (`removeSegments` does not touch styling, so the save/restore leaves
fill, stroke, width and `closed` unchanged). -/
def reprojectPolygon (T : Transform) (p : Polygon) : Polygon :=
  { p with segments := p.originalCoords.map (projectPoint T) }

/-- `window.paperFunctions.updatePolygonPositions` (lines 375-428): recomputes
the transform from the current grid and tile size and reprojects every stored
polygon from its original world coordinates. -/
def updatePolygonPositions (tileSize : ℚ) (st : MosaicState) : MosaicState :=
  let T := computeTransform st.gridColumns st.gridRows tileSize
  { st with polygons := st.polygons.map (reprojectPolygon T) }

/-- `window.paperFunctions.drawGrid` (lines 493-554): removes every previously
drawn grid line and the background, recomputes the transform, draws the
background rectangle and `gridColumns+1` vertical plus `gridRows+1` horizontal
lines positioned by `offset + index * visualTileSize`. -/
def drawGrid (tileSize : ℚ) (st : MosaicState) : MosaicState :=
  let T := computeTransform st.gridColumns st.gridRows tileSize
  let displayWidth := (st.gridColumns : ℚ) * tileSize * T.scale
  let displayHeight := (st.gridRows : ℚ) * tileSize * T.scale
  let visualTileWidth := displayWidth / (st.gridColumns : ℚ)
  let visualTileHeight := displayHeight / (st.gridRows : ℚ)
  let vertical := (List.range (st.gridColumns.toNat + 1)).map fun col =>
    let x := T.offsetX + (col : ℚ) * visualTileWidth
    GLine.mk (x, T.offsetY) (x, T.offsetY + displayHeight)
  let horizontal := (List.range (st.gridRows.toNat + 1)).map fun row =>
    let y := T.offsetY + (row : ℚ) * visualTileHeight
    GLine.mk (T.offsetX, y) (T.offsetX + displayWidth, y)
  { st with
      gridLines := vertical ++ horizontal
      gridBackground := some ⟨(T.offsetX, T.offsetY), (displayWidth, displayHeight)⟩ }

/-- `window.paperFunctions.createPolygon` (lines 440-491): projects the given
world coordinates through the current transform, builds a closed path with
fill `paper.Color(r/255, g/255, b/255)`, stroke `paper.Color(0,0,0,0.5)` of
width 1, and pushes it onto `polygonPaths`. -/
def createPolygon (tileSize : ℚ) (coords : List (ℚ × ℚ)) (r g b : ℚ)
    (st : MosaicState) : MosaicState :=
  let T := computeTransform st.gridColumns st.gridRows tileSize
  let path : Polygon :=
    { originalCoords := coords
      segments := coords.map (projectPoint T)
      closed := true
      fillColor := (r / 255, g / 255, b / 255)
      strokeColor := (0, 0, 0, 1 / 2)
      strokeWidth := 1 }
  { st with polygons := st.polygons ++ [path] }

/-- `window.paperFunctions.clearPolygons` (lines 430-438): removes the polygon
paths from the scene, leaving the grid shapes alone. -/
def clearPolygons (st : MosaicState) : MosaicState :=
  { st with polygons := [] }

/-- The calls into `window.paperFunctions` that the UI-triggered operations
perform; traces of these record the order of the layout-synchronizer calls. -/
inductive PCall where
  | drawGridCall
  | updatePolygonPositionsCall
  | clearPolygonsCall
  | createPolygonCall
  deriving DecidableEq, Repr

/-- The HTML-side `updateGrid` handler for a tile-size change (lines 326-331):
it reads the tile-size input and calls `drawGrid(tileSize)` — and nothing
else. -/
def updateGrid (tileSize : ℚ) (st : MosaicState) : MosaicState × List PCall :=
  (drawGrid tileSize st, [PCall.drawGridCall])

/-- `window.paperFunctions.addColumn` (lines 556-561): `gridColumns++`, then
`this.drawGrid(tileSize)`, then `this.updatePolygonPositions()`. -/
def addColumn (tileSize : ℚ) (st : MosaicState) : MosaicState × List PCall :=
  let st1 := { st with gridColumns := st.gridColumns + 1 }
  (updatePolygonPositions tileSize (drawGrid tileSize st1),
    [PCall.drawGridCall, PCall.updatePolygonPositionsCall])

/-- `window.paperFunctions.removeColumn` (lines 563-570): only when
`gridColumns > 1` does it decrement and redraw; otherwise nothing happens. -/
def removeColumn (tileSize : ℚ) (st : MosaicState) : MosaicState × List PCall :=
  if 1 < st.gridColumns then
    let st1 := { st with gridColumns := st.gridColumns - 1 }
    (updatePolygonPositions tileSize (drawGrid tileSize st1),
      [PCall.drawGridCall, PCall.updatePolygonPositionsCall])
  else (st, [])

/-- `window.paperFunctions.addRow` (lines 572-577). -/
def addRow (tileSize : ℚ) (st : MosaicState) : MosaicState × List PCall :=
  let st1 := { st with gridRows := st.gridRows + 1 }
  (updatePolygonPositions tileSize (drawGrid tileSize st1),
    [PCall.drawGridCall, PCall.updatePolygonPositionsCall])

/-- `window.paperFunctions.removeRow` (lines 579-586). -/
def removeRow (tileSize : ℚ) (st : MosaicState) : MosaicState × List PCall :=
  if 1 < st.gridRows then
    let st1 := { st with gridRows := st.gridRows - 1 }
    (updatePolygonPositions tileSize (drawGrid tileSize st1),
      [PCall.drawGridCall, PCall.updatePolygonPositionsCall])
  else (st, [])

/-- JavaScript `s.includes(pat)` on the character level. -/
def jsIncludes (s pat : List Char) : Bool :=
  (List.range (s.length + 1)).any fun i => pat.isPrefixOf (s.drop i)

/-- The header test of the schema loaders (lines 52-53 and 672-673):
`h.toLowerCase()` contains `'coordinates'` or `'polygon_coords'`. -/
def isCoordsHeader (h : String) : Bool :=
  let hl := h.toList.map Char.toLower
  jsIncludes hl "coordinates".toList || jsIncludes hl "polygon_coords".toList

/-- The coordinates-column search loop (lines 49-57 and 669-677): starting
from `-1`, each header cell that matches overwrites the index, so the last
match wins and `-1` means no coordinates column was found. -/
def findCoordsIndex (header : List String) : ℤ :=
  (header.foldl
    (fun (p : ℤ × ℤ) h => (if isCoordsHeader h then p.2 else p.1, p.2 + 1))
    (-1, 0)).1

/-- The color normalization of the schema loaders (lines 110-123 and 730-743):
if all three channels are `≤ 1` each becomes `Math.floor(channel * 255)`, and
if afterwards all three are `0` they are coerced to `255` for visibility. -/
def normalizeColor (r g b : ℚ) : ℚ × ℚ × ℚ :=
  let s : ℚ × ℚ × ℚ :=
    if r ≤ 1 ∧ g ≤ 1 ∧ b ≤ 1 then
      ((⌊r * 255⌋ : ℚ), (⌊g * 255⌋ : ℚ), (⌊b * 255⌋ : ℚ))
    else (r, g, b)
  if s.1 = 0 ∧ s.2.1 = 0 ∧ s.2.2 = 0 then (255, 255, 255) else s

/-- One data row of the schema loaders, after the text-level steps at the
model boundary: `numFields` is `parseCSVRowJS(line).length`, `coordParse` is
the outcome of `JSON.parse` on the cleaned coordinate field (`none` when it
throws, otherwise the list of numeric pairs), and the colors are the
`parseFloat(row[colorIndex] || 0)` results. -/
structure RowData where
  numFields : ℕ
  coordParse : Option (List (ℚ × ℚ))
  colorR : ℚ
  colorG : ℚ
  colorB : ℚ
  deriving DecidableEq, Repr

/-- Per-row outcome in the schema loaders: silently skipped (`continue`
without touching the error counter), counted as an error (the `catch`
branch), or accepted with normalized colors. -/
inductive RowOutcome where
  | skipped
  | errored
  | accepted (coords : List (ℚ × ℚ)) (color : ℚ × ℚ × ℚ)
  deriving DecidableEq, Repr

/-- The per-row logic of both schema loaders (lines 70-139/143-182 and
690-759/763-802; the two loops differ only in logging): a row with fewer
fields than the header is skipped, a coordinate field that fails to parse is
caught and counted as an error, a parse with fewer than 3 pairs is skipped,
and otherwise the colors are normalized and the polygon is created. -/
def schemaRowOutcome (headerLen : ℕ) (row : RowData) : RowOutcome :=
  if row.numFields < headerLen then .skipped
  else
    match row.coordParse with
    | none => .errored
    | some coords =>
        if coords.length < 3 then .skipped
        else .accepted coords (normalizeColor row.colorR row.colorG row.colorB)

/-- The outcome of a load: the resulting scene state, the reported
`polygonCount` and `errorCount`, and the trace of `window.paperFunctions`
calls made along the way. -/
structure LoadResult where
  state : MosaicState
  polygonCount : ℕ
  errorCount : ℕ
  trace : List PCall
  deriving DecidableEq, Repr

/-- The row loop shared by both schema loaders: each accepted row calls
`createPolygon` (which always succeeds in the model — it returns `false`
only when the drawing surface throws) and increments `polygonCount`; each
caught parse failure increments `errorCount`; skipped rows touch nothing.
No outcome stops the loop. -/
def processSchemaRows (tileSize : ℚ) (headerLen : ℕ) (rows : List RowData)
    (start : LoadResult) : LoadResult :=
  rows.foldl
    (fun acc row =>
      match schemaRowOutcome headerLen row with
      | .skipped => acc
      | .errored => { acc with errorCount := acc.errorCount + 1 }
      | .accepted coords color =>
          { acc with
              state := createPolygon tileSize coords color.1 color.2.1 color.2.2 acc.state
              polygonCount := acc.polygonCount + 1
              trace := acc.trace ++ [PCall.createPolygonCall] })
    start

/-- The replace-mode schema loader (lines 14-203): it calls
`window.paperFunctions.clearPolygons()` first (line 34), then locates the
columns and returns early when no coordinates column exists (lines 61-64) —
with the polygons already cleared.  The `lines.length < 2` early return
coincides with processing an empty row list.  Splitting the text into lines
and fields is at the model boundary: the loader receives the header cells
and the parsed data rows. -/
def loadCSVReplace (tileSize : ℚ) (header : List String) (rows : List RowData)
    (st : MosaicState) : LoadResult :=
  let st1 := clearPolygons st
  if findCoordsIndex header = -1 then
    ⟨st1, 0, 0, [PCall.clearPolygonsCall]⟩
  else
    processSchemaRows tileSize header.length rows
      ⟨st1, 0, 0, [PCall.clearPolygonsCall]⟩

/-- The append-mode schema loader (lines 633-822): identical to the replace
variant except that it never clears the existing polygons (lines 654-655). -/
def loadCSVAppend (tileSize : ℚ) (header : List String) (rows : List RowData)
    (st : MosaicState) : LoadResult :=
  if findCoordsIndex header = -1 then ⟨st, 0, 0, []⟩
  else processSchemaRows tileSize header.length rows ⟨st, 0, 0, []⟩

/-- One data row of the fixed 4-column loader (lines 283-314): `numFields` is
the parsed field count, `coordTokens` the `parseFloat` results of the
comma-split coordinate tokens after stripping parentheses (`none` for `NaN`),
and the colors the `parseInt(field) || 0` results. -/
structure FixedRow where
  numFields : ℕ
  coordTokens : List (Option ℚ)
  colorR : ℤ
  colorG : ℤ
  colorB : ℤ
  deriving DecidableEq, Repr

/-- The coordinate pairing loop of the fixed 4-column loader (lines 294-302):
tokens are taken two at a time (`k += 2`), a pair is kept only when both
components parse (`!isNaN(x) && !isNaN(y)`), and a trailing unpaired token is
ignored (`k + 1 < coordPairs.length`). -/
def pairCoords : List (Option ℚ) → List (ℚ × ℚ)
  | x :: y :: rest =>
      (match x, y with
        | some a, some b => [(a, b)]
        | _, _ => []) ++ pairCoords rest
  | _ => []

/-- The fixed 4-column loader (lines 266-324): every row with at least 4
fields has its coordinate field paired by `pairCoords` and its colors taken
as parsed integers with no normalization; the row yields a polygon exactly
when at least 3 valid pairs remain.  Only `polygonsLoaded` is reported — the
loader keeps no error counter (the `catch` merely logs). -/
def loadCSVFixed (tileSize : ℚ) (rows : List FixedRow) (st : MosaicState) :
    MosaicState × ℕ × List PCall :=
  rows.foldl
    (fun acc row =>
      if 4 ≤ row.numFields then
        let coords := pairCoords row.coordTokens
        if 3 ≤ coords.length then
          (createPolygon tileSize coords (row.colorR : ℚ) (row.colorG : ℚ)
            (row.colorB : ℚ) acc.1, acc.2.1 + 1, acc.2.2 ++ [PCall.createPolygonCall])
        else acc
      else acc)
    (st, 0, [])

/-- One rebuild-then-reproject pass of the layout synchronizer, the sequence
the add/remove operations run: `drawGrid` then `updatePolygonPositions`. -/
def rebuildReproject (tileSize : ℚ) (st : MosaicState) : MosaicState :=
  updatePolygonPositions tileSize (drawGrid tileSize st)

/-- The interactive view state of `paper.view`: zoom factor and center. -/
structure ViewState where
  zoom : ℚ
  center : ℚ × ℚ
  deriving DecidableEq, Repr

/-- `paper.view.onMouseWheel` (lines 590-603): `deltaNeg` is
`event.delta < 0`, `cursor` the project-space mouse position.
`newZoom = oldZoom * 1.05` (in) or `oldZoom * 0.95` (out), clamped by
`Math.max(0.05, Math.min(20, newZoom))`; the view recenters by
`newCenter = mouse - (mouse - center) * (oldZoom/newZoom)`. -/
def onMouseWheel (deltaNeg : Bool) (cursor : ℚ × ℚ) (v : ViewState) :
    ViewState :=
  let oldZoom := v.zoom
  let newZoom :=
    max (1 / 20 : ℚ)
      (min 20 (if deltaNeg then oldZoom * (21 / 20) else oldZoom * (19 / 20)))
  let beta := oldZoom / newZoom
  let offset : ℚ × ℚ := (cursor.1 - v.center.1, cursor.2 - v.center.2)
  { zoom := newZoom
    center := (cursor.1 - offset.1 * beta, cursor.2 - offset.2 * beta) }

/-- A sequence of mouse-wheel events (direction and cursor position each),
applied in order. -/
def applyWheelEvents (events : List (Bool × ℚ × ℚ)) (v : ViewState) :
    ViewState :=
  events.foldl (fun w e => onMouseWheel e.1 e.2 w) v

end Mosaik

namespace Mosaik

/-- C1: the scale equals `min(canvasWidth/(c*t), canvasHeight/(r*t))`, fits the
world rectangle in the canvas with equality on at least one axis, and the
offsets center it. -/
theorem transform_fits_and_centers (c r : ℤ) (t : ℚ)
    (hc : 1 ≤ c) (hr : 1 ≤ r) (ht : 0 < t) :
    (computeTransform c r t).scale
        = min (canvasWidth / ((c : ℚ) * t)) (canvasHeight / ((r : ℚ) * t)) ∧
    (computeTransform c r t).scale * ((c : ℚ) * t) ≤ canvasWidth ∧
    (computeTransform c r t).scale * ((r : ℚ) * t) ≤ canvasHeight ∧
    ((computeTransform c r t).scale * ((c : ℚ) * t) = canvasWidth ∨
      (computeTransform c r t).scale * ((r : ℚ) * t) = canvasHeight) ∧
    (computeTransform c r t).offsetX
        = (canvasWidth - (c : ℚ) * t * (computeTransform c r t).scale) / 2 ∧
    (computeTransform c r t).offsetY
        = (canvasHeight - (r : ℚ) * t * (computeTransform c r t).scale) / 2 := by
  have hcq : (0 : ℚ) < (c : ℚ) := by exact_mod_cast hc.trans_lt' (by norm_num)
  have hrq : (0 : ℚ) < (r : ℚ) := by exact_mod_cast hr.trans_lt' (by norm_num)
  have hct : (0 : ℚ) < (c : ℚ) * t := mul_pos hcq ht
  have hrt : (0 : ℚ) < (r : ℚ) * t := mul_pos hrq ht
  refine ⟨rfl, ?_, ?_, ?_, ?_, ?_⟩
  · calc (computeTransform c r t).scale * ((c : ℚ) * t)
        ≤ canvasWidth / ((c : ℚ) * t) * ((c : ℚ) * t) := by
          exact mul_le_mul_of_nonneg_right (min_le_left _ _) hct.le
      _ = canvasWidth := div_mul_cancel₀ _ hct.ne'
  · calc (computeTransform c r t).scale * ((r : ℚ) * t)
        ≤ canvasHeight / ((r : ℚ) * t) * ((r : ℚ) * t) := by
          exact mul_le_mul_of_nonneg_right (min_le_right _ _) hrt.le
      _ = canvasHeight := div_mul_cancel₀ _ hrt.ne'
  · rcases min_choice (canvasWidth / ((c : ℚ) * t)) (canvasHeight / ((r : ℚ) * t)) with h | h
    · exact Or.inl (by
        show min _ _ * _ = _
        rw [h, div_mul_cancel₀ _ hct.ne'])
    · exact Or.inr (by
        show min _ _ * _ = _
        rw [h, div_mul_cancel₀ _ hrt.ne'])
  · rfl
  · rfl

theorem reprojectPolygon_twice (T : Transform) (p : Polygon) :
    reprojectPolygon T (reprojectPolygon T p) = reprojectPolygon T p := rfl

theorem updatePolygonPositions_polygons_eq (t : ℚ) (st : MosaicState) :
    (updatePolygonPositions t st).polygons
      = st.polygons.map
          (reprojectPolygon (computeTransform st.gridColumns st.gridRows t)) := rfl

theorem updatePolygonPositions_proj_map (t : ℚ) (st : MosaicState) :
    (updatePolygonPositions t st).polygons.map Polygon.originalCoords
        = st.polygons.map Polygon.originalCoords ∧
    (updatePolygonPositions t st).polygons.map Polygon.fillColor
        = st.polygons.map Polygon.fillColor ∧
    (updatePolygonPositions t st).polygons.map Polygon.strokeColor
        = st.polygons.map Polygon.strokeColor ∧
    (updatePolygonPositions t st).polygons.map Polygon.strokeWidth
        = st.polygons.map Polygon.strokeWidth ∧
    (updatePolygonPositions t st).polygons.map Polygon.closed
        = st.polygons.map Polygon.closed := by
  refine ⟨?_, ?_, ?_, ?_, ?_⟩ <;>
    simp [updatePolygonPositions_polygons_eq, List.map_map, Function.comp,
      reprojectPolygon]

/-- C4: columns ≥ 1 and rows ≥ 1 hold initially (10 and 7) and are preserved
by every grid operation; `removeColumn` at 1 column (and `removeRow` at 1
row) leaves the state untouched and raises nothing. -/
theorem grid_floor_invariant (t : ℚ) (st : MosaicState)
    (hc : 1 ≤ st.gridColumns) (hr : 1 ≤ st.gridRows) :
    (1 ≤ initState.gridColumns ∧ 1 ≤ initState.gridRows) ∧
    (1 ≤ (addColumn t st).1.gridColumns ∧ 1 ≤ (addColumn t st).1.gridRows) ∧
    (1 ≤ (removeColumn t st).1.gridColumns ∧
      1 ≤ (removeColumn t st).1.gridRows) ∧
    (1 ≤ (addRow t st).1.gridColumns ∧ 1 ≤ (addRow t st).1.gridRows) ∧
    (1 ≤ (removeRow t st).1.gridColumns ∧ 1 ≤ (removeRow t st).1.gridRows) ∧
    (1 ≤ (drawGrid t st).gridColumns ∧ 1 ≤ (drawGrid t st).gridRows) ∧
    (st.gridColumns = 1 → removeColumn t st = (st, [])) ∧
    (st.gridRows = 1 → removeRow t st = (st, [])) := by
  refine ⟨⟨by decide, by decide⟩, ⟨?_, ?_⟩, ⟨?_, ?_⟩, ⟨?_, ?_⟩, ⟨?_, ?_⟩,
      ⟨hc, hr⟩, ?_, ?_⟩
  · show 1 ≤ st.gridColumns + 1; omega
  · exact hr
  · rw [removeColumn]; split
    · show 1 ≤ st.gridColumns - 1; omega
    · exact hc
  · rw [removeColumn]; split
    · exact hr
    · exact hr
  · exact hc
  · show 1 ≤ st.gridRows + 1; omega
  · rw [removeRow]; split
    · exact hc
    · exact hc
  · rw [removeRow]; split
    · show 1 ≤ st.gridRows - 1; omega
    · exact hr
  · intro h1
    rw [removeColumn, if_neg (by omega)]
  · intro h1
    rw [removeRow, if_neg (by omega)]

/-- C4 witness: the initial state, with tile size 300. -/
theorem grid_floor_invariant_witness :
    (1 : ℤ) ≤ initState.gridColumns ∧ (1 : ℤ) ≤ initState.gridRows ∧
    (1 ≤ (removeColumn 300 initState).1.gridColumns ∧
      1 ≤ (removeColumn 300 initState).1.gridRows) := by
  refine ⟨by norm_num [initState], by norm_num [initState], ?_⟩
  exact (grid_floor_invariant 300 initState (by norm_num [initState])
    (by norm_num [initState])).2.2.1

/-- C9: one rebuild-then-reproject pass is idempotent: a second pass with the
same world-model state reproduces the same grid lines, background and
screen-space polygon geometry exactly. -/
theorem rebuild_reproject_idempotent (t : ℚ) (st : MosaicState) :
    rebuildReproject t (rebuildReproject t st) = rebuildReproject t st := by
  cases st
  simp only [rebuildReproject, updatePolygonPositions, drawGrid]
  simp [List.map_map, Function.comp, reprojectPolygon_twice]

/-- C7: any number of reprojection passes leaves every polygon's stored
world-space vertices and its fill color, stroke color, stroke width and
closed flag unchanged; a pass replaces only the derived screen-space
segments, recomputed from the original coordinates through the transform. -/
theorem reprojection_preserves_world_coords (t : ℚ) (st : MosaicState) (n : ℕ) :
    (((updatePolygonPositions t)^[n] st).polygons.map Polygon.originalCoords
        = st.polygons.map Polygon.originalCoords) ∧
    (((updatePolygonPositions t)^[n] st).polygons.map Polygon.fillColor
        = st.polygons.map Polygon.fillColor) ∧
    (((updatePolygonPositions t)^[n] st).polygons.map Polygon.strokeColor
        = st.polygons.map Polygon.strokeColor) ∧
    (((updatePolygonPositions t)^[n] st).polygons.map Polygon.strokeWidth
        = st.polygons.map Polygon.strokeWidth) ∧
    (((updatePolygonPositions t)^[n] st).polygons.map Polygon.closed
        = st.polygons.map Polygon.closed) ∧
    ((updatePolygonPositions t st).polygons
        = st.polygons.map fun p =>
            { p with segments := p.originalCoords.map (projectPoint (computeTransform st.gridColumns st.gridRows t)) }) := by
  refine ⟨?_, ?_, ?_, ?_, ?_, rfl⟩ <;>
  · induction n generalizing st with
    | zero => rfl
    | succ m ih =>
      rw [Function.iterate_succ_apply]
      rw [ih (updatePolygonPositions t st)]
      have h := updatePolygonPositions_proj_map t st
      tauto

/-- C2 counterexample: the tile-size-change trigger (`updateGrid`, lines
326-331) calls only `drawGrid`; no `updatePolygonPositions` call follows in
the same pass, contrary to the claim, shown here on the initial state with
tile size 300. -/
theorem updateGrid_trace_no_reprojection :
    (updateGrid 300 initState).2 = [PCall.drawGridCall] ∧
    PCall.updatePolygonPositionsCall ∉ (updateGrid 300 initState).2 := by
  exact ⟨rfl, by decide⟩

theorem processSchemaRows_trace_mem (t : ℚ) (hl : ℕ) (rows : List RowData)
    (start : LoadResult) :
    ∀ c ∈ (processSchemaRows t hl rows start).trace,
      c ∈ start.trace ∨ c = PCall.createPolygonCall := by
  rw [processSchemaRows]
  refine @List.foldlRecOn _ _
    (fun res => ∀ c ∈ res.trace, c ∈ start.trace ∨ c = PCall.createPolygonCall)
    rows _ start (fun c hc => Or.inl hc) ?_
  intro b hb row hrow c hc
  revert hc
  cases schemaRowOutcome hl row with
  | skipped => exact hb c
  | errored => exact hb c
  | accepted coords color =>
    intro hc
    rcases List.mem_append.mp hc with h | h
    · exact hb c h
    · simp only [List.mem_singleton] at h
      exact Or.inr h

theorem loadCSVFixed_trace_mem (t : ℚ) (rows : List FixedRow)
    (st : MosaicState) :
    ∀ c ∈ (loadCSVFixed t rows st).2.2, c = PCall.createPolygonCall := by
  rw [loadCSVFixed]
  refine @List.foldlRecOn _ _
    (fun res => ∀ c ∈ res.2.2, c = PCall.createPolygonCall)
    rows _ (st, 0, []) (fun c hc => absurd hc (List.not_mem_nil c)) ?_
  intro b hb row hrow c
  split
  · dsimp only
    split
    · intro hc
      rcases List.mem_append.mp hc with h | h
      · exact hb c h
      · simpa using h
    · exact hb c
  · exact hb c

/-- C2 amended: only the add/remove column and row operations perform the
full `drawGrid`-then-`updatePolygonPositions` sequence (the remove variants
when above the floor); the tile-size-change handler performs `drawGrid`
alone, and the three CSV loaders perform neither call — they only clear
and/or create polygons, each created polygon being projected individually. -/
theorem sync_sequence_by_trigger (t : ℚ) (st : MosaicState)
    (header : List String) (rows : List RowData) (frows : List FixedRow)
    (hc : 1 < st.gridColumns) (hr : 1 < st.gridRows) :
    (addColumn t st).2
        = [PCall.drawGridCall, PCall.updatePolygonPositionsCall] ∧
    (removeColumn t st).2
        = [PCall.drawGridCall, PCall.updatePolygonPositionsCall] ∧
    (addRow t st).2
        = [PCall.drawGridCall, PCall.updatePolygonPositionsCall] ∧
    (removeRow t st).2
        = [PCall.drawGridCall, PCall.updatePolygonPositionsCall] ∧
    (addColumn t st).1
        = rebuildReproject t { st with gridColumns := st.gridColumns + 1 } ∧
    (updateGrid t st).2 = [PCall.drawGridCall] ∧
    (updateGrid t st).1 = drawGrid t st ∧
    (∀ c ∈ (loadCSVReplace t header rows st).trace,
        c = PCall.clearPolygonsCall ∨ c = PCall.createPolygonCall) ∧
    (∀ c ∈ (loadCSVAppend t header rows st).trace,
        c = PCall.createPolygonCall) ∧
    (∀ c ∈ (loadCSVFixed t frows st).2.2, c = PCall.createPolygonCall) := by
  refine ⟨rfl, ?_, rfl, ?_, rfl, rfl, rfl, ?_, ?_, loadCSVFixed_trace_mem t frows st⟩
  · rw [removeColumn, if_pos hc]
  · rw [removeRow, if_pos hr]
  · intro c hcm
    rw [loadCSVReplace] at hcm
    revert hcm
    split
    · intro hcm
      simp only [List.mem_singleton] at hcm
      exact Or.inl hcm
    · intro hcm
      rcases processSchemaRows_trace_mem t header.length rows _ c hcm with h | h
      · simp only [List.mem_singleton] at h
        exact Or.inl h
      · exact Or.inr h
  · intro c hcm
    rw [loadCSVAppend] at hcm
    revert hcm
    split
    · intro hcm
      simp at hcm
    · intro hcm
      rcases processSchemaRows_trace_mem t header.length rows _ c hcm with h | h
      · simp at h
      · exact h

/-- C2 amended witness: the initial state (10 columns, 7 rows), tile size
300 and empty load inputs. -/
theorem sync_sequence_by_trigger_witness :
    (addColumn 300 initState).2
        = [PCall.drawGridCall, PCall.updatePolygonPositionsCall] ∧
    (removeColumn 300 initState).2
        = [PCall.drawGridCall, PCall.updatePolygonPositionsCall] ∧
    (updateGrid 300 initState).2 = [PCall.drawGridCall] := by
  have h := sync_sequence_by_trigger 300 initState [] [] []
    (by norm_num [initState]) (by norm_num [initState])
  exact ⟨h.1, h.2.1, h.2.2.2.2.2.1⟩

/-- C1 witness: the default grid (columns 10, rows 7, tile size 300). -/
theorem transform_fits_and_centers_witness :
    (1 : ℤ) ≤ 10 ∧ (1 : ℤ) ≤ 7 ∧ (0 : ℚ) < 300 ∧
    ((computeTransform 10 7 300).scale
        = min (canvasWidth / ((10 : ℤ) * (300 : ℚ))) (canvasHeight / ((7 : ℤ) * (300 : ℚ))) ∧
      (computeTransform 10 7 300).scale * (((10 : ℤ) : ℚ) * 300) ≤ canvasWidth ∧
      (computeTransform 10 7 300).scale * (((7 : ℤ) : ℚ) * 300) ≤ canvasHeight ∧
      ((computeTransform 10 7 300).scale * (((10 : ℤ) : ℚ) * 300) = canvasWidth ∨
        (computeTransform 10 7 300).scale * (((7 : ℤ) : ℚ) * 300) = canvasHeight) ∧
      (computeTransform 10 7 300).offsetX
          = (canvasWidth - ((10 : ℤ) : ℚ) * 300 * (computeTransform 10 7 300).scale) / 2 ∧
      (computeTransform 10 7 300).offsetY
          = (canvasHeight - ((7 : ℤ) : ℚ) * 300 * (computeTransform 10 7 300).scale) / 2) :=
  ⟨by norm_num, by norm_num, by norm_num,
    transform_fits_and_centers 10 7 300 (by norm_num) (by norm_num) (by norm_num)⟩

theorem loadCSVFixed_singleton (t : ℚ) (row : FixedRow) (st : MosaicState)
    (h4 : 4 ≤ row.numFields) (h3 : 3 ≤ (pairCoords row.coordTokens).length) :
    loadCSVFixed t [row] st
      = (createPolygon t (pairCoords row.coordTokens) (row.colorR : ℚ)
          (row.colorG : ℚ) (row.colorB : ℚ) st, 1, [PCall.createPolygonCall]) := by
  rw [loadCSVFixed]
  simp only [List.foldl_cons, List.foldl_nil]
  rw [if_pos h4]
  rw [if_pos h3]
  norm_num

/-- C3 counterexample: the fixed 4-column loader applies no color
normalization, so a record with channels (0, 0, 0) keeps fill
`paper.Color(0, 0, 0)` — black — where the claim requires the coercion to
(255, 255, 255), i.e. fill `paper.Color(1, 1, 1)`. -/
theorem fixed_variant_black_not_coerced :
    ((loadCSVFixed 300
        [⟨4, [some 0, some 0, some 3000, some 0, some 1500, some 3000], 0, 0, 0⟩]
        initState).1.polygons.map Polygon.fillColor
      = [((0 : ℚ), (0 : ℚ), (0 : ℚ))]) ∧
    ([((0 : ℚ), (0 : ℚ), (0 : ℚ))]
      ≠ [((255 : ℚ) / 255, (255 : ℚ) / 255, (255 : ℚ) / 255)]) := by
  constructor
  · rw [loadCSVFixed_singleton 300 _ initState (by norm_num)
      (by norm_num [pairCoords])]
    norm_num [createPolygon, initState]
  · norm_num

/-- C3 amended: the schema loaders normalize colors exactly as claimed
(scale when all channels ≤ 1, coerce an all-zero result to white, pass
through otherwise), with the three examples holding there; the fixed
4-column loader performs no normalization at all, handing the parsed integer
channels directly to `createPolygon`. -/
theorem color_normalization_schema_only (r g b : ℚ) (hl : ℕ) (row : RowData)
    (frow : FixedRow) (t : ℚ) (st : MosaicState) :
    (r ≤ 1 ∧ g ≤ 1 ∧ b ≤ 1 →
      normalizeColor r g b
        = if (⌊r * 255⌋ : ℚ) = 0 ∧ (⌊g * 255⌋ : ℚ) = 0 ∧ (⌊b * 255⌋ : ℚ) = 0
          then (255, 255, 255)
          else ((⌊r * 255⌋ : ℚ), (⌊g * 255⌋ : ℚ), (⌊b * 255⌋ : ℚ))) ∧
    (¬(r ≤ 1 ∧ g ≤ 1 ∧ b ≤ 1) → normalizeColor r g b = (r, g, b)) ∧
    normalizeColor (1 / 2) (1 / 2) (1 / 2) = (127, 127, 127) ∧
    normalizeColor 0 0 0 = (255, 255, 255) ∧
    normalizeColor 10 200 30 = (10, 200, 30) ∧
    (∀ coords, row.coordParse = some coords → ¬ row.numFields < hl →
      ¬ coords.length < 3 →
      schemaRowOutcome hl row
        = RowOutcome.accepted coords
            (normalizeColor row.colorR row.colorG row.colorB)) ∧
    (4 ≤ frow.numFields → 3 ≤ (pairCoords frow.coordTokens).length →
      loadCSVFixed t [frow] st
        = (createPolygon t (pairCoords frow.coordTokens) (frow.colorR : ℚ)
            (frow.colorG : ℚ) (frow.colorB : ℚ) st, 1,
            [PCall.createPolygonCall])) := by
  refine ⟨?_, ?_, by norm_num [normalizeColor], by norm_num [normalizeColor],
    by norm_num [normalizeColor], ?_, loadCSVFixed_singleton t frow st⟩
  · intro h
    simp only [normalizeColor]
    rw [if_pos h]
  · intro h
    simp only [normalizeColor]
    rw [if_neg h, if_neg]
    rintro ⟨h1, h2, h3⟩
    have h1q : r = 0 := h1
    have h2q : g = 0 := h2
    have h3q : b = 0 := h3
    exact h ⟨by rw [h1q]; norm_num, by rw [h2q]; norm_num, by rw [h3q]; norm_num⟩
  · intro coords hcp hnf hlen
    rw [schemaRowOutcome, if_neg hnf]
    simp only [hcp]
    rw [if_neg hlen]

/-- C5 counterexample: in the schema loader, a row with fewer fields than
the header is rejected yet NOT counted in the error count: this 5-row batch
(row 3 has 2 of 4 fields) reports 4 polygons and 0 errors, where the claim
requires every rejected record to be counted. -/
theorem schema_skipped_row_not_counted :
    (loadCSVReplace 300 ["coordinates", "color_r", "color_g", "color_b"]
        [⟨4, some [(0, 0), (9, 0), (0, 9)], 10, 20, 30⟩,
         ⟨4, some [(0, 0), (9, 0), (0, 9)], 10, 20, 30⟩,
         ⟨2, some [(0, 0), (9, 0), (0, 9)], 10, 20, 30⟩,
         ⟨4, some [(0, 0), (9, 0), (0, 9)], 10, 20, 30⟩,
         ⟨4, some [(0, 0), (9, 0), (0, 9)], 10, 20, 30⟩]
        initState).polygonCount = 4 ∧
    (loadCSVReplace 300 ["coordinates", "color_r", "color_g", "color_b"]
        [⟨4, some [(0, 0), (9, 0), (0, 9)], 10, 20, 30⟩,
         ⟨4, some [(0, 0), (9, 0), (0, 9)], 10, 20, 30⟩,
         ⟨2, some [(0, 0), (9, 0), (0, 9)], 10, 20, 30⟩,
         ⟨4, some [(0, 0), (9, 0), (0, 9)], 10, 20, 30⟩,
         ⟨4, some [(0, 0), (9, 0), (0, 9)], 10, 20, 30⟩]
        initState).errorCount = 0 := by
  rw [loadCSVReplace, if_neg (by decide)]
  refine ⟨?_, ?_⟩ <;>
    norm_num [processSchemaRows, schemaRowOutcome, List.foldl_cons,
      List.foldl_nil]

/-- C5 amended: no row outcome stops the batch — the reported counts are
per-row sums: the accepted count counts exactly the accepted rows and the
error count counts exactly the rows whose coordinate field failed to parse
(skipped rows are uncounted); the 5-row example with row 3 unparsable gives
4 polygons and 1 error in the schema variants, while the fixed 4-column
variant reports only an accepted count (4 on its example) and no error
count. -/
theorem error_counting_per_row (t : ℚ) (hl : ℕ) (rows : List RowData)
    (start : LoadResult) :
    ((processSchemaRows t hl rows start).polygonCount
        = start.polygonCount
          + rows.countP (fun row =>
              match schemaRowOutcome hl row with
              | RowOutcome.accepted _ _ => true
              | _ => false)) ∧
    ((processSchemaRows t hl rows start).errorCount
        = start.errorCount
          + rows.countP (fun row =>
              match schemaRowOutcome hl row with
              | RowOutcome.errored => true
              | _ => false)) ∧
    ((loadCSVAppend 300 ["coordinates", "color_r", "color_g", "color_b"]
        [⟨4, some [(0, 0), (9, 0), (0, 9)], 10, 20, 30⟩,
         ⟨4, some [(0, 0), (9, 0), (0, 9)], 10, 20, 30⟩,
         ⟨4, none, 10, 20, 30⟩,
         ⟨4, some [(0, 0), (9, 0), (0, 9)], 10, 20, 30⟩,
         ⟨4, some [(0, 0), (9, 0), (0, 9)], 10, 20, 30⟩]
        initState).polygonCount = 4 ∧
      (loadCSVAppend 300 ["coordinates", "color_r", "color_g", "color_b"]
        [⟨4, some [(0, 0), (9, 0), (0, 9)], 10, 20, 30⟩,
         ⟨4, some [(0, 0), (9, 0), (0, 9)], 10, 20, 30⟩,
         ⟨4, none, 10, 20, 30⟩,
         ⟨4, some [(0, 0), (9, 0), (0, 9)], 10, 20, 30⟩,
         ⟨4, some [(0, 0), (9, 0), (0, 9)], 10, 20, 30⟩]
        initState).errorCount = 1) ∧
    ((loadCSVFixed 300
        [⟨4, [some 0, some 0, some 9, some 0, some 0, some 9], 1, 2, 3⟩,
         ⟨4, [some 0, some 0, some 9, some 0, some 0, some 9], 1, 2, 3⟩,
         ⟨4, [none, none, none, none, none, none], 1, 2, 3⟩,
         ⟨4, [some 0, some 0, some 9, some 0, some 0, some 9], 1, 2, 3⟩,
         ⟨4, [some 0, some 0, some 9, some 0, some 0, some 9], 1, 2, 3⟩]
        initState).2.1 = 4) := by
  refine ⟨?_, ?_, ?_, ?_⟩
  · induction rows generalizing start with
    | nil => simp [processSchemaRows]
    | cons row rest ih =>
      simp only [processSchemaRows] at ih ⊢
      rw [List.foldl_cons, List.countP_cons]
      rw [ih]
      cases h : schemaRowOutcome hl row <;> · simp [h]; try omega
  · induction rows generalizing start with
    | nil => simp [processSchemaRows]
    | cons row rest ih =>
      simp only [processSchemaRows] at ih ⊢
      rw [List.foldl_cons, List.countP_cons]
      rw [ih]
      cases h : schemaRowOutcome hl row <;> · simp [h]; try omega
  · rw [loadCSVAppend, if_neg (by decide)]
    refine ⟨?_, ?_⟩ <;>
      norm_num [processSchemaRows, schemaRowOutcome, List.foldl_cons,
        List.foldl_nil]
  · norm_num [loadCSVFixed, List.foldl_cons, List.foldl_nil, pairCoords]

/-- C6 counterexample: the replace entry point clears the polygon set before
checking for the coordinates column, so a load whose header has no such
column leaves the polygon set empty instead of "exactly as it was before the
load began": starting with one polygon, the aborted load ends with none. -/
theorem replace_load_missing_column_clears :
    (loadCSVReplace 300 ["id", "shape"] []
        { initState with
            polygons := [⟨[(0, 0), (9, 0), (0, 9)], [], true, (1, 1, 1),
              (0, 0, 0, 1), 1⟩] }).state.polygons = [] ∧
    ([(⟨[(0, 0), (9, 0), (0, 9)], [], true, (1, 1, 1),
        (0, 0, 0, 1), 1⟩ : Polygon)] : List Polygon) ≠ [] := by
  constructor
  · rw [loadCSVReplace, if_pos (by decide)]
    rfl
  · simp

/-- C6 amended: when the coordinates column is missing, the append entry
point aborts with the polygon set (indeed the whole state) unchanged and no
polygons or errors reported; the replace entry point aborts with the polygon
set already cleared — the prior set is lost, not preserved. -/
theorem missing_column_abort (t : ℚ) (header : List String)
    (rows : List RowData) (st : MosaicState)
    (h : findCoordsIndex header = -1) :
    (loadCSVAppend t header rows st).state = st ∧
    (loadCSVAppend t header rows st).polygonCount = 0 ∧
    (loadCSVAppend t header rows st).errorCount = 0 ∧
    (loadCSVReplace t header rows st).state = clearPolygons st ∧
    (loadCSVReplace t header rows st).polygonCount = 0 ∧
    (loadCSVReplace t header rows st).errorCount = 0 := by
  rw [loadCSVAppend, loadCSVReplace, if_pos h, if_pos h]
  exact ⟨rfl, rfl, rfl, rfl, rfl, rfl⟩

/-- C6 amended witness: a two-column header with no coordinates column, on
the initial state. -/
theorem missing_column_abort_witness :
    (loadCSVAppend 300 ["id", "shape"] [] initState).state = initState ∧
    (loadCSVReplace 300 ["id", "shape"] [] initState).state
      = clearPolygons initState := by
  have h := missing_column_abort 300 ["id", "shape"] [] initState (by decide)
  exact ⟨h.1, h.2.2.2.1⟩

theorem pairCoords_odd_dropLast :
    ∀ toks : List (Option ℚ), toks.length % 2 = 1 →
      pairCoords toks = pairCoords toks.dropLast
  | [], h => by simp at h
  | [x], _ => by cases x <;> rfl
  | x :: y :: rest, h => by
    have hr : rest.length % 2 = 1 := by
      simp only [List.length_cons] at h
      omega
    have hne : rest ≠ [] := by
      intro he
      rw [he] at hr
      simp at hr
    have hdl : (x :: y :: rest).dropLast = x :: y :: rest.dropLast := by
      cases rest with
      | nil => exact absurd rfl hne
      | cons a l => rfl
    rw [hdl]
    simp only [pairCoords]
    rw [pairCoords_odd_dropLast rest hr]

/-- C10: in the fixed 4-column loader, a coordinate pair with an unparsable
component is dropped silently (the loop advances by two and keeps nothing),
a valid pair is kept, a trailing unpaired token is discarded, and a record
with at least 4 fields and at least 3 surviving pairs still yields a polygon
from exactly the surviving pairs — with no error recorded (the loader
reports only the accepted count and the creation calls). -/
theorem fixed_variant_pair_dropping (x y : Option ℚ) (a b : ℚ)
    (rest toks : List (Option ℚ)) (row : FixedRow) (t : ℚ)
    (st : MosaicState) :
    pairCoords (none :: y :: rest) = pairCoords rest ∧
    pairCoords (x :: none :: rest) = pairCoords rest ∧
    pairCoords (some a :: some b :: rest) = (a, b) :: pairCoords rest ∧
    (toks.length % 2 = 1 → pairCoords toks = pairCoords toks.dropLast) ∧
    (4 ≤ row.numFields → 3 ≤ (pairCoords row.coordTokens).length →
      loadCSVFixed t [row] st
        = (createPolygon t (pairCoords row.coordTokens) (row.colorR : ℚ)
            (row.colorG : ℚ) (row.colorB : ℚ) st, 1,
            [PCall.createPolygonCall])) := by
  refine ⟨?_, ?_, rfl, pairCoords_odd_dropLast toks,
    loadCSVFixed_singleton t row st⟩
  · cases y <;> rfl
  · cases x <;> rfl

theorem applyWheelEvents_cons (e : Bool × ℚ × ℚ) (rest : List (Bool × ℚ × ℚ))
    (v : ViewState) :
    applyWheelEvents (e :: rest) v
      = applyWheelEvents rest (onMouseWheel e.1 e.2 v) := rfl

theorem onMouseWheel_zoom_eq (d : Bool) (cur : ℚ × ℚ) (v : ViewState) :
    (onMouseWheel d cur v).zoom
      = max (1 / 20)
          (min 20 (if d then v.zoom * (21 / 20) else v.zoom * (19 / 20))) := rfl

theorem onMouseWheel_zoom_bounds (d : Bool) (cur : ℚ × ℚ) (v : ViewState) :
    1 / 20 ≤ (onMouseWheel d cur v).zoom ∧ (onMouseWheel d cur v).zoom ≤ 20 := by
  rw [onMouseWheel_zoom_eq]
  exact ⟨le_max_left _ _, max_le (by norm_num) (min_le_left _ _)⟩

theorem applyWheelEvents_zoom_bounds (events : List (Bool × ℚ × ℚ))
    (v : ViewState) (h1 : 1 / 20 ≤ v.zoom) (h2 : v.zoom ≤ 20) :
    1 / 20 ≤ (applyWheelEvents events v).zoom
      ∧ (applyWheelEvents events v).zoom ≤ 20 := by
  induction events generalizing v with
  | nil => exact ⟨h1, h2⟩
  | cons e rest ih =>
    rw [applyWheelEvents_cons]
    exact ih _ (onMouseWheel_zoom_bounds e.1 e.2 v).1
      (onMouseWheel_zoom_bounds e.1 e.2 v).2

theorem zoomIn_closed_form (n : ℕ) (cur : ℚ × ℚ) (v : ViewState)
    (h1 : 1 ≤ v.zoom) (h2 : v.zoom ≤ 20) :
    (applyWheelEvents (List.replicate n (true, cur)) v).zoom
      = min 20 (v.zoom * (21 / 20) ^ n) := by
  induction n generalizing v with
  | zero =>
    show v.zoom = min 20 (v.zoom * (21 / 20) ^ 0)
    rw [pow_zero, mul_one, min_eq_right h2]
  | succ m ih =>
    rw [List.replicate_succ, applyWheelEvents_cons]
    have hz : (onMouseWheel true cur v).zoom = min 20 (v.zoom * (21 / 20)) := by
      rw [onMouseWheel_zoom_eq, if_pos rfl]
      exact max_eq_right (le_min (by norm_num) (by linarith))
    have h1w : 1 ≤ (onMouseWheel true cur v).zoom := by
      rw [hz]
      exact le_min (by norm_num) (by linarith)
    have h2w : (onMouseWheel true cur v).zoom ≤ 20 := by
      rw [hz]
      exact min_le_left _ _
    rw [ih _ h1w h2w, hz]
    rcases le_total (v.zoom * (21 / 20)) 20 with h | h
    · rw [min_eq_right h]
      congr 1
      ring
    · have hp : (1 : ℚ) ≤ (21 / 20) ^ m := one_le_pow₀ (by norm_num)
      have hps : ((21 : ℚ) / 20) ^ (m + 1) = (21 / 20) ^ m * (21 / 20) :=
        pow_succ _ _
      rw [min_eq_left h, min_eq_left (by nlinarith), min_eq_left (by nlinarith)]

theorem zoomOut_closed_form (n : ℕ) (cur : ℚ × ℚ) (v : ViewState)
    (h1 : 1 / 20 ≤ v.zoom) (h2 : v.zoom ≤ 1) :
    (applyWheelEvents (List.replicate n (false, cur)) v).zoom
      = max (1 / 20) (v.zoom * (19 / 20) ^ n) := by
  induction n generalizing v with
  | zero =>
    show v.zoom = max (1 / 20) (v.zoom * (19 / 20) ^ 0)
    rw [pow_zero, mul_one, max_eq_right h1]
  | succ m ih =>
    rw [List.replicate_succ, applyWheelEvents_cons]
    have hz : (onMouseWheel false cur v).zoom
        = max (1 / 20) (v.zoom * (19 / 20)) := by
      rw [onMouseWheel_zoom_eq, if_neg (by simp)]
      rw [min_eq_right (by linarith)]
    have h1w : 1 / 20 ≤ (onMouseWheel false cur v).zoom := by
      rw [hz]
      exact le_max_left _ _
    have h2w : (onMouseWheel false cur v).zoom ≤ 1 := by
      rw [hz]
      exact max_le (by norm_num) (by linarith)
    rw [ih _ h1w h2w, hz]
    rcases le_total (1 / 20) (v.zoom * (19 / 20)) with h | h
    · rw [max_eq_right h]
      congr 1
      ring
    · have hp0 : (0 : ℚ) ≤ (19 / 20) ^ m := by positivity
      have hp1 : ((19 : ℚ) / 20) ^ m ≤ 1 := pow_le_one₀ (by norm_num) (by norm_num)
      have hps : ((19 : ℚ) / 20) ^ (m + 1) = (19 / 20) ^ m * (19 / 20) :=
        pow_succ _ _
      rw [max_eq_left h, max_eq_left (by nlinarith), max_eq_left (by nlinarith)]

/-- C8: a wheel event scales the zoom by 1.05 (in) or 0.95 (out) and clamps
it to [0.05, 20], recentering at the cursor by
`newCenter = cursor - (cursor - oldCenter) * (oldZoom/newZoom)`; starting at
zoom 1, any event sequence keeps the zoom in [0.05, 20], and enough repeated
zoom-in (resp. zoom-out) events saturate it exactly at 20 (resp. 0.05),
where further events leave it. -/
theorem zoom_clamp_and_anchor (events : List (Bool × ℚ × ℚ)) (v : ViewState)
    (hv : v.zoom = 1) :
    (∀ (d : Bool) (cur : ℚ × ℚ) (w : ViewState),
      (onMouseWheel d cur w).zoom
          = max (1 / 20)
              (min 20 (if d then w.zoom * (21 / 20) else w.zoom * (19 / 20))) ∧
      (onMouseWheel d cur w).center
          = (cur.1 - (cur.1 - w.center.1)
                * (w.zoom / (onMouseWheel d cur w).zoom),
             cur.2 - (cur.2 - w.center.2)
                * (w.zoom / (onMouseWheel d cur w).zoom))) ∧
    (1 / 20 ≤ (applyWheelEvents events v).zoom
      ∧ (applyWheelEvents events v).zoom ≤ 20) ∧
    (∃ N : ℕ, ∀ m, N ≤ m → ∀ cur : ℚ × ℚ,
        (applyWheelEvents (List.replicate m (true, cur)) v).zoom = 20) ∧
    (∃ N : ℕ, ∀ m, N ≤ m → ∀ cur : ℚ × ℚ,
        (applyWheelEvents (List.replicate m (false, cur)) v).zoom = 1 / 20) := by
  refine ⟨fun d cur w => ⟨rfl, rfl⟩,
    applyWheelEvents_zoom_bounds events v (by rw [hv]; norm_num)
      (by rw [hv]; norm_num), ?_, ?_⟩
  · obtain ⟨N, hN⟩ :=
      pow_unbounded_of_one_lt (20 : ℚ) (show (1 : ℚ) < 21 / 20 by norm_num)
    refine ⟨N, fun m hm cur => ?_⟩
    rw [zoomIn_closed_form m cur v (by rw [hv]) (by rw [hv]; norm_num), hv,
      one_mul]
    exact min_eq_left
      (hN.le.trans (pow_le_pow_right₀ (by norm_num) hm))
  · obtain ⟨N, hN⟩ :=
      pow_unbounded_of_one_lt (20 : ℚ) (show (1 : ℚ) < 20 / 19 by norm_num)
    refine ⟨N, fun m hm cur => ?_⟩
    rw [zoomOut_closed_form m cur v (by rw [hv]; norm_num) (by rw [hv]), hv,
      one_mul]
    apply max_eq_left
    have h2 : (20 : ℚ) ≤ (20 / 19) ^ m :=
      hN.le.trans (pow_le_pow_right₀ (by norm_num) hm)
    have h3 : (((20 : ℚ) / 19) ^ m)⁻¹ ≤ (20 : ℚ)⁻¹ := inv_anti₀ (by norm_num) h2
    have h4 : ((19 : ℚ) / 20) ^ m = (((20 : ℚ) / 19) ^ m)⁻¹ := by
      rw [← inv_pow]
      norm_num
    rw [h4]
    calc (((20 : ℚ) / 19) ^ m)⁻¹ ≤ (20 : ℚ)⁻¹ := h3
      _ = 1 / 20 := by norm_num

/-- C8 witness: two concrete wheel events (one in, one out at cursor (3,4)
and (0,0)) starting at zoom 1: the zoom stays in [0.05, 20]. -/
theorem zoom_clamp_and_anchor_witness :
    1 / 20 ≤ (applyWheelEvents [(true, (3, 4)), (false, (0, 0))]
        ⟨1, (0, 0)⟩).zoom
      ∧ (applyWheelEvents [(true, (3, 4)), (false, (0, 0))]
        ⟨1, (0, 0)⟩).zoom ≤ 20 :=
  (zoom_clamp_and_anchor [(true, (3, 4)), (false, (0, 0))] ⟨1, (0, 0)⟩ rfl).2.1

end Mosaik
